import Mathlib

/-!
Shallow embedding of `src/backy2/io/rbd.py` — the concurrent block-I/O
engine (class `IO`): configuration intake, queue construction, the reader
and writer worker loop bodies, the facade operations `read`/`get`/`write`,
`open_w`'s existence/force/size checks, and the `close` shutdown protocol.

Conventions:
- bytes objects are `List Nat`; an empty list is falsy, as in Python;
- the hash collaborator `hash_function(...).hexdigest()` is an opaque
  function `Bytes → String` passed as a parameter;
- the rbd image read/write handles are opaque functions
  (`offset → length → Bytes` for reads, `data → offset → Nat` for writes,
  the `Nat` being the byte count the backend reports as written);
- Python `queue.Queue` is FIFO: `put` appends at the tail, `get` pops the
  head; `maxsize = 0` means unbounded, exactly as in `queue.Queue()`;
- a worker raising an exception is modelled as the worker's run ending
  with `some message`; the exception stays on the worker thread;
- opaque caller metadata is modelled as `Nat` (the code never inspects it).
-/

namespace Backy2Rbd

abbrev Bytes := List Nat

/-- Model of the `config` collaborator seen through `config.getint`:
a partial map from key to integer value. -/
abbrev Config := String → Option Nat

/-- `config.getint(key, default)`. -/
def Config.getint (c : Config) (key : String) (dflt : Nat) : Nat :=
  (c key).getD dflt

/-- Class attribute `IO.WRITE_QUEUE_LENGTH = 20` (rbd.py line 31). -/
def WRITE_QUEUE_LENGTH : Nat := 20

/-- Class attribute `IO.READ_QUEUE_LENGTH = 20` (rbd.py line 32). -/
def READ_QUEUE_LENGTH : Nat := 20

/-- `self.simultaneous_reads = config.getint('simultaneous_reads', 10)`
(rbd.py, `IO.__init__`). -/
def simultaneous_reads_of (config : Config) : Nat :=
  config.getint "simultaneous_reads" 10

/-- `self.simultaneous_writes = config.getint('simultaneous_reads', 1)`
(rbd.py, `IO.__init__`) — note the source reads the key
`'simultaneous_reads'`, not `'simultaneous_writes'`. -/
def simultaneous_writes_of (config : Config) : Nat :=
  config.getint "simultaneous_reads" 1

/-- `self._write_queue = queue.Queue(self.simultaneous_writes + self.WRITE_QUEUE_LENGTH)`. -/
def write_queue_maxsize_of (config : Config) : Nat :=
  simultaneous_writes_of config + WRITE_QUEUE_LENGTH

/-- `self._inqueue = queue.Queue()` — maxsize 0, i.e. unbounded. -/
def inqueue_maxsize_of (_config : Config) : Nat := 0

/-- `self._outqueue = queue.Queue(self.simultaneous_reads)` — the source
does not add `READ_QUEUE_LENGTH` here. -/
def outqueue_maxsize_of (config : Config) : Nat :=
  simultaneous_reads_of config

/-- `open_r`'s loop `for i in range(self.simultaneous_reads)` appends one
thread per iteration to `self._reader_threads`; we model the thread list
by the list of worker ids. -/
def reader_threads_of (config : Config) : List Nat :=
  List.range (simultaneous_reads_of config)

/-- `open_w`'s loop `for i in range(self.simultaneous_writes)` appends one
thread per iteration to `self._writer_threads`. -/
def writer_threads_of (config : Config) : List Nat :=
  List.range (simultaneous_writes_of config)

/-- Outcome of the existence/force/size checks of `IO.open_w` (after the
pool was opened successfully).  `fatalError` carries the `logger.error`
message of the branch; in the source both fatal branches then call
`exit('Error opening restore target.')`. -/
inductive OpenWOutcome where
  | createdImage
  | openedExisting
  | fatalError (log : String)
deriving DecidableEq

/-- The `try: rbd.Image(...) except rbd.ImageNotFound: ... else: ...`
block of `IO.open_w` (rbd.py lines 105-116): if the image does not exist
it is created; if it exists and `force` is false the open fails fatally
("already exists"); if it exists and `force` is true the source tests
`if size < self.size()` — i.e. it fails when the supplied size hint is
smaller than the EXISTING image size — and proceeds otherwise.
`existingSize` is what `self.size()` returns for the existing image. -/
def open_w_check (imageExists : Bool) (existingSize : Nat) (size : Nat)
    (force : Bool) : OpenWOutcome :=
  if !imageExists then
    OpenWOutcome.createdImage
  else if !force then
    OpenWOutcome.fatalError "Image already exists."
  else if size < existingSize then
    OpenWOutcome.fatalError "Target size is too small."
  else
    OpenWOutcome.openedExisting

/-- A configuration with both keys set, distinguishing reads from writes. -/
def cfgReads5Writes3 : Config := fun k =>
  if k = "simultaneous_reads" then some 5
  else if k = "simultaneous_writes" then some 3
  else none

/-- The default configuration: neither key present, so `getint` falls back
to its defaults. -/
def defaultConfig : Config := fun _ => none

/-- An entry of `self._inqueue`: the tuple `(block_id, read, metadata)`
put by `IO.read`; the queue also carries the `None` sentinel, modelled by
wrapping entries in `Option`. -/
structure ReadRequest where
  block_id : Nat
  read : Bool
  metadata : Nat
deriving DecidableEq

/-- An entry of `self._outqueue`: either the `None` terminal sentinel a
reader forwards on shutdown, or the tuple
`(block_id, data, data_checksum, metadata)`. -/
inductive OutEntry where
  | sentinel
  | result (block_id : Nat) (data : Option Bytes) (data_checksum : Option String)
      (metadata : Nat)
deriving DecidableEq

/-- What one iteration of the `_reader` loop body does: the outqueue
entries it pushes, the backend `image.read(offset, length, ...)` calls it
issues, the exception it raises (if any), and whether it breaks the loop. -/
structure ReaderStepResult where
  out : List OutEntry
  image_reads : List (Nat × Nat)
  err : Option String
  brk : Bool
deriving DecidableEq

/-- The message of the `RuntimeError` raised by `_reader` on an empty
backend read.  -/
def eofMessage : String := "EOF reached on source when there should be data."

/-- One iteration of the loop body of `IO._reader` (rbd.py lines 160-182):
`entry = self._inqueue.get()`; on `None` push `None` to the outqueue and
break; otherwise unpack `(block_id, read, metadata)`; `if not read` push
`(block_id, None, None, metadata)`; else read `self.block_size` bytes at
`block_id * self.block_size` from the image, raise `RuntimeError` if the
returned bytes are empty (falsy), otherwise compute
`self.hash_function(data).hexdigest()` and push
`(block_id, data, data_checksum, metadata)`. -/
def reader_step (hash_function : Bytes → String) (block_size : Nat)
    (image : Nat → Nat → Bytes) : Option ReadRequest → ReaderStepResult
  | none =>
      { out := [OutEntry.sentinel], image_reads := [], err := none, brk := true }
  | some req =>
      if !req.read then
        { out := [OutEntry.result req.block_id none none req.metadata],
          image_reads := [], err := none, brk := false }
      else
        let offset := req.block_id * block_size
        let data := image offset block_size
        if data = [] then
          { out := [], image_reads := [(offset, block_size)],
            err := some eofMessage, brk := false }
        else
          { out := [OutEntry.result req.block_id (some data)
                      (some (hash_function data)) req.metadata],
            image_reads := [(offset, block_size)], err := none, brk := false }

/-- The whole `while True` loop of `IO._reader`, run over the worker's
slice of the inqueue: returns the outqueue entries pushed and, if an
exception escaped (ending the thread), its message.  An exception or the
sentinel stops processing; no entry is ever retried. -/
def reader_run (hash_function : Bytes → String) (block_size : Nat)
    (image : Nat → Nat → Bytes) :
    List (Option ReadRequest) → List OutEntry × Option String
  | [] => ([], none)
  | e :: rest =>
      let s := reader_step hash_function block_size image e
      match s.err with
      | some msg => (s.out, some msg)
      | none =>
          if s.brk then (s.out, none)
          else
            let r := reader_run hash_function block_size image rest
            (s.out ++ r.1, r.2)

/-- The `block` objects handed to `IO.write`: the writer only uses
`block.id`. -/
structure Block where
  id : Nat
deriving DecidableEq

/-- An entry of `self._write_queue`: the tuple `(block, data, callback)`
put by `IO.write`; `callback` is `None` or a callable, modelled by an
`Option` over an opaque callback identity.  The queue also carries the
`None` sentinel, modelled by `Option WriteEntry`. -/
structure WriteEntry where
  block : Block
  data : Bytes
  callback : Option Nat
deriving DecidableEq

/-- Observable actions of one `_writer` iteration, in order:
`wrote offset data written` for the `self._write_rbd.write(data, offset, ...)`
call (with the byte count the backend reported), and `callbackInvoked c`
for `callback()`. -/
inductive WriterEvent where
  | wrote (offset : Nat) (data : Bytes) (written : Nat)
  | callbackInvoked (c : Nat)
deriving DecidableEq

/-- What one iteration of the `_writer` loop body does: the ordered events
it performs, the exception it raises (if any), and whether it breaks. -/
structure WriterStepResult where
  events : List WriterEvent
  err : Option String
  brk : Bool
deriving DecidableEq

/-- The failed `assert written == len(data)` of `_writer`. -/
def assertionMessage : String := "AssertionError"

/-- One iteration of the loop body of `IO._writer` (rbd.py lines 137-155):
`entry = self._write_queue.get()`; on `None` break; otherwise unpack
`(block, data, callback)`; `offset = block.id * self.block_size`;
`written = self._write_rbd.write(data, offset, ...)`;
`assert written == len(data)` — a mismatch raises before anything else
happens; then `if callback: callback()`. -/
def writer_step (block_size : Nat) (write_rbd : Bytes → Nat → Nat) :
    Option WriteEntry → WriterStepResult
  | none => { events := [], err := none, brk := true }
  | some entry =>
      let offset := entry.block.id * block_size
      let written := write_rbd entry.data offset
      if written = entry.data.length then
        { events := WriterEvent.wrote offset entry.data written ::
            (match entry.callback with
             | some c => [WriterEvent.callbackInvoked c]
             | none => []),
          err := none, brk := false }
      else
        { events := [WriterEvent.wrote offset entry.data written],
          err := some assertionMessage, brk := false }

/-- The whole `while True` loop of `IO._writer` over the worker's slice of
the write queue: the ordered events performed and, if an exception escaped
(ending the thread), its message.  An exception or the sentinel stops
processing; no entry is ever retried. -/
def writer_run (block_size : Nat) (write_rbd : Bytes → Nat → Nat) :
    List (Option WriteEntry) → List WriterEvent × Option String
  | [] => ([], none)
  | e :: rest =>
      let s := writer_step block_size write_rbd e
      match s.err with
      | some msg => (s.events, some msg)
      | none =>
          if s.brk then (s.events, none)
          else
            let r := writer_run block_size write_rbd rest
            (s.events ++ r.1, r.2)

/-- The two queues a facade call can touch. -/
structure QState where
  inqueue : List (Option ReadRequest)
  outqueue : List OutEntry
deriving DecidableEq

/-- The value `IO.read` hands back to its caller, or the exception it
raises.  `blocked` marks the modelling boundary where `self.get()` would
block on an empty outqueue; `typeErr` marks unpacking the `None` sentinel
into a 4-tuple. -/
inductive SyncOutcome where
  | value (d : Option Bytes)
  | raised (msg : String)
  | blocked
  | typeErr
deriving DecidableEq

/-- `IO.get` (rbd.py lines 199-202): a blocking `self._outqueue.get()`;
`none` models blocking on an empty queue. -/
def get_op (q : QState) : Option (OutEntry × QState) :=
  match q.outqueue with
  | [] => none
  | e :: rest => some (e, { q with outqueue := rest })

/-- `IO.read` (rbd.py lines 185-192): put `(block_id, read, metadata)`
into `self._inqueue`; if `sync`, dequeue one outqueue entry, raise
`RuntimeError` when its block id differs from the requested one, and
return its `data`; if not `sync`, fall off the end, returning `None`. -/
def read_op (block_id : Nat) (sync : Bool) (read : Bool) (metadata : Nat)
    (q : QState) : QState × SyncOutcome :=
  let q1 := { q with
    inqueue := q.inqueue ++
      [some { block_id := block_id, read := read, metadata := metadata }] }
  if sync then
    match q1.outqueue with
    | [] => (q1, SyncOutcome.blocked)
    | OutEntry.sentinel :: rest =>
        ({ q1 with outqueue := rest }, SyncOutcome.typeErr)
    | OutEntry.result rblock_id data _ _ :: rest =>
        if rblock_id ≠ block_id then
          ({ q1 with outqueue := rest },
           SyncOutcome.raised "Do not mix threaded reading with sync reading!")
        else
          ({ q1 with outqueue := rest }, SyncOutcome.value data)
  else (q1, SyncOutcome.value none)

/-- The read-mode branch of `IO.close` (rbd.py lines 228-233):
`for _reader_thread in self._reader_threads: self._inqueue.put(None)` —
one sentinel appended per started reader thread (then all are joined). -/
def close_r_enqueue (reader_threads : List Nat)
    (inqueue : List (Option ReadRequest)) : List (Option ReadRequest) :=
  reader_threads.foldl (fun q _ => q ++ [none]) inqueue

/-- Number of `None` sentinels in an inqueue. -/
def countNone (l : List (Option ReadRequest)) : Nat :=
  l.countP fun e => e.isNone

/-- Whether an outqueue entry is the terminal `None` sentinel. -/
def OutEntry.isTerminal : OutEntry → Bool
  | OutEntry.sentinel => true
  | _ => false

/-- Number of terminal sentinels in an outqueue. -/
def sentinelCount (l : List OutEntry) : Nat :=
  l.countP OutEntry.isTerminal

end Backy2Rbd

namespace Backy2Rbd

/-- Unfolding: a reader that dequeues the `None` sentinel pushes exactly
one terminal sentinel downstream and stops, whatever follows in the
queue. -/
theorem reader_run_sentinel (hash_function : Bytes → String) (block_size : Nat)
    (image : Nat → Nat → Bytes) (rest : List (Option ReadRequest)) :
    reader_run hash_function block_size image (none :: rest) =
      ([OutEntry.sentinel], none) := rfl

/-- Unfolding: a no-fetch request is passed through and the loop
continues. -/
theorem reader_run_nofetch (hash_function : Bytes → String) (block_size : Nat)
    (image : Nat → Nat → Bytes) (req : ReadRequest)
    (rest : List (Option ReadRequest)) (hr : req.read = false) :
    reader_run hash_function block_size image (some req :: rest) =
      (OutEntry.result req.block_id none none req.metadata ::
         (reader_run hash_function block_size image rest).1,
       (reader_run hash_function block_size image rest).2) := by
  simp [reader_run, reader_step, hr]

/-- Unfolding: a fetch request with nonempty backend data yields its
result and the loop continues. -/
theorem reader_run_fetch (hash_function : Bytes → String) (block_size : Nat)
    (image : Nat → Nat → Bytes) (req : ReadRequest)
    (rest : List (Option ReadRequest)) (hr : req.read = true)
    (hd : image (req.block_id * block_size) block_size ≠ []) :
    reader_run hash_function block_size image (some req :: rest) =
      (OutEntry.result req.block_id
           (some (image (req.block_id * block_size) block_size))
           (some (hash_function (image (req.block_id * block_size) block_size)))
           req.metadata ::
         (reader_run hash_function block_size image rest).1,
       (reader_run hash_function block_size image rest).2) := by
  simp [reader_run, reader_step, hr, hd]

/-- Unfolding: a fetch request whose backend read comes back empty raises
`RuntimeError`, ends the worker, pushes nothing, and processes nothing
further. -/
theorem reader_run_fetch_eof (hash_function : Bytes → String) (block_size : Nat)
    (image : Nat → Nat → Bytes) (req : ReadRequest)
    (rest : List (Option ReadRequest)) (hr : req.read = true)
    (hd : image (req.block_id * block_size) block_size = []) :
    reader_run hash_function block_size image (some req :: rest) =
      ([], some eofMessage) := by
  simp [reader_run, reader_step, hr, hd]

/-- A reader run that consumed a sentinel and raised no exception pushed
exactly one terminal sentinel downstream. -/
theorem sentinelCount_reader_run_eq_one (hash_function : Bytes → String)
    (block_size : Nat) (image : Nat → Nat → Bytes) :
    ∀ l : List (Option ReadRequest), (none : Option ReadRequest) ∈ l →
      (reader_run hash_function block_size image l).2 = none →
      sentinelCount (reader_run hash_function block_size image l).1 = 1 := by
  intro l
  induction l with
  | nil => intro hm _; exact absurd hm (List.not_mem_nil _)
  | cons e rest ih =>
      intro hm hne
      cases e with
      | none =>
          rw [reader_run_sentinel]
          decide
      | some req =>
          have hm' : (none : Option ReadRequest) ∈ rest := by
            rcases List.mem_cons.mp hm with h | h
            · exact absurd h.symm (by simp)
            · exact h
          cases hr : req.read with
          | false =>
              rw [reader_run_nofetch hash_function block_size image req rest hr]
                at hne ⊢
              simp only [sentinelCount, List.countP_cons, OutEntry.isTerminal]
                at hne ⊢
              simpa using ih hm' hne
          | true =>
              by_cases hd : image (req.block_id * block_size) block_size = []
              · rw [reader_run_fetch_eof hash_function block_size image req rest
                  hr hd] at hne
                simp at hne
              · rw [reader_run_fetch hash_function block_size image req rest
                  hr hd] at hne ⊢
                simp only [sentinelCount, List.countP_cons, OutEntry.isTerminal]
                  at hne ⊢
                simpa using ih hm' hne

/-- Close in read mode appends exactly one sentinel per started reader
thread to the request queue. -/
theorem countNone_close_r_enqueue :
    ∀ (reader_threads : List Nat) (inq : List (Option ReadRequest)),
      countNone (close_r_enqueue reader_threads inq) =
        countNone inq + reader_threads.length := by
  intro ts
  induction ts with
  | nil => intro inq; simp [close_r_enqueue, countNone]
  | cons t ts ih =>
      intro inq
      show countNone (close_r_enqueue ts (inq ++ [none])) = _
      rw [ih]
      simp [countNone, List.countP_append]
      omega

/-- Claim C2 (code_bug evaluation): `open_w` with `force=true` against an
existing image tests `if size < self.size()`, so with an existing image of
100 bytes and a size hint of 4096 (existing strictly smaller than the
hint) the open PROCEEDS, while with an existing image of 4096 bytes and a
size hint of 100 it fails fatally with the log message "Target size is
too small." — the condition is reversed relative to the claim and to the
code's own log message (which reports "Has existing b, need hint b"). -/
theorem open_w_force_size_check_eval :
    open_w_check true 100 4096 true = OpenWOutcome.openedExisting ∧
    open_w_check true 4096 100 true =
      OpenWOutcome.fatalError "Target size is too small." :=
  ⟨rfl, rfl⟩

/-- Claim C3 (code_bug evaluation): with `simultaneous_reads = 5` and
`simultaneous_writes = 3` in the configuration, `open_w` starts 5 writer
threads, not 3: `IO.__init__` assigns
`self.simultaneous_writes = config.getint('simultaneous_reads', 1)`,
reading the reads key, so the writer pool size follows `simultaneous_reads`
and the `simultaneous_writes` key is never consulted. -/
theorem writer_thread_count_follows_reads_key :
    (writer_threads_of cfgReads5Writes3).length = 5 ∧
    simultaneous_writes_of cfgReads5Writes3 ≠ 3 ∧
    (writer_threads_of defaultConfig).length = 1 := by
  refine ⟨by decide, by decide, by decide⟩

/-- Claim C5 (counterexample): at the default configuration the
ResultQueue (`self._outqueue`) is created as
`queue.Queue(self.simultaneous_reads)`, capacity 10 — NOT reader worker
count plus the fixed slack of 20 (which would be 30); `READ_QUEUE_LENGTH`
is defined but never used for the outqueue. -/
theorem outqueue_capacity_counterexample :
    outqueue_maxsize_of defaultConfig ≠
      (reader_threads_of defaultConfig).length + READ_QUEUE_LENGTH := by
  decide

/-- Claim C5 (amended): at engine construction with default configuration,
the WriteQueue capacity equals the writer worker count plus the fixed
slack of 20 (1 + 20 = 21), the ResultQueue capacity equals the reader
worker count with NO slack (10), both are bounded (positive maxsize), and
the RequestQueue (`self._inqueue`) is unbounded (maxsize 0, Python's
"infinite size" queue). -/
theorem queue_capacities_at_default_config :
    write_queue_maxsize_of defaultConfig =
      (writer_threads_of defaultConfig).length + WRITE_QUEUE_LENGTH ∧
    outqueue_maxsize_of defaultConfig =
      (reader_threads_of defaultConfig).length ∧
    inqueue_maxsize_of defaultConfig = 0 ∧
    0 < write_queue_maxsize_of defaultConfig ∧
    0 < outqueue_maxsize_of defaultConfig := by
  refine ⟨by decide, by decide, by decide, by decide, by decide⟩

/-- Claim C1: for a request with `read=true` (shouldFetch) whose backend
read returns nonempty bytes, the reader iteration issues exactly one
backend read of `block_size` bytes at offset `block_id * block_size`, and
pushes exactly one result carrying those bytes, a checksum equal to
`hash_function` applied to those same bytes, and the request's unchanged
`block_id` and `metadata`; no exception is raised. -/
theorem reader_fetch_reads_chunk_and_hashes (hash_function : Bytes → String)
    (block_size : Nat) (image : Nat → Nat → Bytes) (req : ReadRequest)
    (hfetch : req.read = true)
    (hdata : image (req.block_id * block_size) block_size ≠ []) :
    reader_step hash_function block_size image (some req) =
      { out := [OutEntry.result req.block_id
                  (some (image (req.block_id * block_size) block_size))
                  (some (hash_function (image (req.block_id * block_size) block_size)))
                  req.metadata],
        image_reads := [(req.block_id * block_size, block_size)],
        err := none, brk := false } := by
  simp [reader_step, hfetch, hdata]

/-- Witness for C1 at a concrete input: block 3, block size 4, a backend
returning four `1` bytes, the hash being the stringified length. -/
theorem reader_fetch_reads_chunk_and_hashes_witness :
    reader_step (fun d => toString d.length) 4 (fun _ l => List.replicate l 1)
        (some { block_id := 3, read := true, metadata := 9 }) =
      { out := [OutEntry.result 3 (some [1, 1, 1, 1]) (some "4") 9],
        image_reads := [(12, 4)], err := none, brk := false } := by
  exact reader_fetch_reads_chunk_and_hashes (fun d => toString d.length) 4
    (fun _ l => List.replicate l 1) { block_id := 3, read := true, metadata := 9 }
    rfl (by decide)

/-- Claim C6: for a request with `read=false`, the reader iteration pushes
`(block_id, None, None, metadata)` — absent data and checksum, the
request's `block_id` and `metadata` unchanged — and issues no backend
read at all. -/
theorem reader_nofetch_passthrough (hash_function : Bytes → String)
    (block_size : Nat) (image : Nat → Nat → Bytes) (req : ReadRequest)
    (hnofetch : req.read = false) :
    reader_step hash_function block_size image (some req) =
      { out := [OutEntry.result req.block_id none none req.metadata],
        image_reads := [], err := none, brk := false } := by
  simp [reader_step, hnofetch]

/-- Witness for C6 at a concrete input. -/
theorem reader_nofetch_passthrough_witness :
    reader_step (fun d => toString d.length) 4 (fun _ l => List.replicate l 1)
        (some { block_id := 7, read := false, metadata := 5 }) =
      { out := [OutEntry.result 7 none none 5],
        image_reads := [], err := none, brk := false } := by
  exact reader_nofetch_passthrough (fun d => toString d.length) 4
    (fun _ l => List.replicate l 1) { block_id := 7, read := false, metadata := 5 } rfl

/-- Claim C7: for every write entry with a callback, the writer issues the
backend write at offset `block.id * block_size`; when the backend reports
exactly `len(data)` bytes written the events are the write followed by
the callback invocation (the callback fires only after the successful
full-length write), and when the reported count differs the iteration
raises the `assert written == len(data)` failure and the callback is
never invoked. -/
theorem writer_checks_length_offset_callback (block_size : Nat)
    (write_rbd : Bytes → Nat → Nat) (entry : WriteEntry) (c : Nat)
    (hcb : entry.callback = some c) :
    (write_rbd entry.data (entry.block.id * block_size) = entry.data.length →
      writer_step block_size write_rbd (some entry) =
        { events := [WriterEvent.wrote (entry.block.id * block_size) entry.data
                       entry.data.length,
                     WriterEvent.callbackInvoked c],
          err := none, brk := false }) ∧
    (write_rbd entry.data (entry.block.id * block_size) ≠ entry.data.length →
      writer_step block_size write_rbd (some entry) =
        { events := [WriterEvent.wrote (entry.block.id * block_size) entry.data
                       (write_rbd entry.data (entry.block.id * block_size))],
          err := some assertionMessage, brk := false }) := by
  constructor
  · intro hfull
    simp [writer_step, hfull, hcb]
  · intro hshort
    simp [writer_step, hshort]

/-- Witness for C7 at a concrete input: a full-length write of two bytes
for block 2 at block size 4 lands at offset 8 and then fires callback 1. -/
theorem writer_checks_length_offset_callback_witness :
    writer_step 4 (fun d _ => d.length)
        (some { block := { id := 2 }, data := [5, 6], callback := some 1 }) =
      { events := [WriterEvent.wrote 8 [5, 6] 2, WriterEvent.callbackInvoked 1],
        err := none, brk := false } := by
  exact (writer_checks_length_offset_callback 4 (fun d _ => d.length)
    { block := { id := 2 }, data := [5, 6], callback := some 1 } 1 rfl).1 rfl

/-- Claim C8: `read` with `sync=true` appends the request to the request
queue and then performs a blocking `get()`; when the dequeued result's
block id differs from the requested one it raises
`RuntimeError('Do not mix threaded reading with sync reading!')`, and
when it matches it returns that result's data. -/
theorem read_sync_checks_block_id (block_id : Nat) (rd : Bool) (metadata : Nat)
    (q : QState) (rblock_id : Nat) (data : Option Bytes) (cs : Option String)
    (md : Nat) (rest : List OutEntry)
    (hq : q.outqueue = OutEntry.result rblock_id data cs md :: rest) :
    (rblock_id ≠ block_id →
      read_op block_id true rd metadata q =
        ({ inqueue := q.inqueue ++
             [some { block_id := block_id, read := rd, metadata := metadata }],
           outqueue := rest },
         SyncOutcome.raised "Do not mix threaded reading with sync reading!")) ∧
    (rblock_id = block_id →
      read_op block_id true rd metadata q =
        ({ inqueue := q.inqueue ++
             [some { block_id := block_id, read := rd, metadata := metadata }],
           outqueue := rest },
         SyncOutcome.value data)) := by
  constructor
  · intro hne
    simp [read_op, hq, hne]
  · intro heq
    simp [read_op, hq, heq]

/-- Witness for C8 at a concrete input: requesting block 5 while the
queued result is for block 6 raises the interleaving error. -/
theorem read_sync_checks_block_id_witness :
    read_op 5 true true 0
        { inqueue := [], outqueue := [OutEntry.result 6 (some [2]) (some "h") 3] } =
      ({ inqueue := [some { block_id := 5, read := true, metadata := 0 }],
         outqueue := [] },
       SyncOutcome.raised "Do not mix threaded reading with sync reading!") := by
  exact (read_sync_checks_block_id 5 true 0
    { inqueue := [], outqueue := [OutEntry.result 6 (some [2]) (some "h") 3] }
    6 (some [2]) (some "h") 3 [] rfl).1 (by decide)

/-- Claim C10: `read` with `sync=false` only appends the request to the
request queue, leaves the outqueue untouched, and returns `None` to its
caller (the Python function falls off the end); the eventual result can
only be obtained by a later `get_op` on the outqueue. -/
theorem read_async_returns_none (block_id : Nat) (rd : Bool) (metadata : Nat)
    (q : QState) :
    read_op block_id false rd metadata q =
      ({ inqueue := q.inqueue ++
           [some { block_id := block_id, read := rd, metadata := metadata }],
         outqueue := q.outqueue },
       SyncOutcome.value none) := by
  simp [read_op]

/-- Claim C9: `close()` in read mode appends exactly one `None` sentinel
per started reader thread to the request queue (then joins them all), and
every reader worker that raised no exception and consumed a sentinel from
its slice of the request queue pushed exactly one terminal sentinel into
the outqueue — so exactly one terminal signal per started worker is
observable downstream. -/
theorem close_read_mode_one_sentinel_per_worker (hash_function : Bytes → String)
    (block_size : Nat) (image : Nat → Nat → Bytes)
    (reader_threads : List Nat) (inq : List (Option ReadRequest))
    (n : Nat) (streams : Fin n → List (Option ReadRequest))
    (hterm : ∀ i, (none : Option ReadRequest) ∈ streams i)
    (hnoerr : ∀ i,
      (reader_run hash_function block_size image (streams i)).2 = none) :
    countNone (close_r_enqueue reader_threads inq) =
      countNone inq + reader_threads.length ∧
    ∀ i, sentinelCount
        (reader_run hash_function block_size image (streams i)).1 = 1 := by
  refine ⟨countNone_close_r_enqueue reader_threads inq, fun i => ?_⟩
  exact sentinelCount_reader_run_eq_one hash_function block_size image
    (streams i) (hterm i) (hnoerr i)

/-- Witness for C9 at a concrete input: one started reader thread, whose
stream is a single sentinel. -/
theorem close_read_mode_one_sentinel_per_worker_witness :
    countNone (close_r_enqueue [0] []) = countNone [] + [0].length ∧
    ∀ i : Fin 1, sentinelCount
        (reader_run (fun d => toString d.length) 4 (fun _ l => List.replicate l 1)
          ((fun _ : Fin 1 => [(none : Option ReadRequest)]) i)).1 = 1 := by
  exact close_read_mode_one_sentinel_per_worker (fun d => toString d.length) 4
    (fun _ l => List.replicate l 1) [0] [] 1 (fun _ => [none])
    (fun _ => List.mem_singleton.mpr rfl) (fun _ => rfl)

/-- Claim C4 (counterexample): a fetch request whose backend read comes
back empty makes `_reader` raise `RuntimeError` on the worker thread: the
outqueue — the only channel `get()` reads — receives NO entry for the
failing request (here it stays empty, so a `get()` would block, modelled
by `get_op` returning `none`), and a short write makes `_writer` fail its
assertion on the worker thread after `write()` has already returned to
the caller; neither exception is delivered through `get()`/`write()`. -/
theorem steady_state_error_not_on_result_channel :
    reader_run (fun d => toString d.length) 4 (fun _ _ => [])
        [some { block_id := 0, read := true, metadata := 0 }] =
      ([], some eofMessage) ∧
    writer_run 4 (fun _ _ => 0)
        [some { block := { id := 0 }, data := [7], callback := some 1 }] =
      ([WriterEvent.wrote 0 [7] 0], some assertionMessage) ∧
    get_op { inqueue := [], outqueue := [] } = none :=
  ⟨rfl, rfl, rfl⟩

/-- Claim C4 (amended): a steady-state per-chunk failure — an empty
backend read where a full chunk was expected, or a backend write
accepting fewer bytes than supplied — aborts the owning worker's current
operation and terminates that worker with the raised exception (nothing
after the failing entry is processed, so nothing is retried); the reader
consulted the backend exactly once for the failing request and pushed
nothing downstream, and the failing writer never invoked any callback. -/
theorem steady_state_error_aborts_no_retry (hash_function : Bytes → String)
    (block_size : Nat) (image : Nat → Nat → Bytes)
    (write_rbd : Bytes → Nat → Nat)
    (req : ReadRequest) (rrest : List (Option ReadRequest))
    (entry : WriteEntry) (wrest : List (Option WriteEntry))
    (hread : req.read = true)
    (hempty : image (req.block_id * block_size) block_size = [])
    (hshort :
      write_rbd entry.data (entry.block.id * block_size) ≠ entry.data.length) :
    reader_run hash_function block_size image (some req :: rrest) =
      ([], some eofMessage) ∧
    (reader_step hash_function block_size image (some req)).image_reads =
      [(req.block_id * block_size, block_size)] ∧
    writer_run block_size write_rbd (some entry :: wrest) =
      ([WriterEvent.wrote (entry.block.id * block_size) entry.data
          (write_rbd entry.data (entry.block.id * block_size))],
       some assertionMessage) ∧
    ∀ c, WriterEvent.callbackInvoked c ∉
      (writer_run block_size write_rbd (some entry :: wrest)).1 := by
  refine ⟨reader_run_fetch_eof hash_function block_size image req rrest
    hread hempty, ?_, ?_, ?_⟩
  · simp [reader_step, hread, hempty]
  · simp [writer_run, writer_step, hshort]
  · intro c
    simp [writer_run, writer_step, hshort]

/-- Witness for the amended C4 at a concrete input: the queues still hold
a trailing sentinel behind the failing entry, and it is never processed. -/
theorem steady_state_error_aborts_no_retry_witness :
    reader_run (fun d => toString d.length) 4 (fun _ _ => [])
        [some { block_id := 1, read := true, metadata := 2 }, none] =
      ([], some eofMessage) ∧
    (reader_step (fun d => toString d.length) 4 (fun _ _ => [])
        (some { block_id := 1, read := true, metadata := 2 })).image_reads =
      [(4, 4)] ∧
    writer_run 4 (fun _ _ => 0)
        [some { block := { id := 3 }, data := [9], callback := some 4 }, none] =
      ([WriterEvent.wrote 12 [9] 0], some assertionMessage) ∧
    ∀ c, WriterEvent.callbackInvoked c ∉
      (writer_run 4 (fun _ _ => 0)
        [some { block := { id := 3 }, data := [9], callback := some 4 }, none]).1 := by
  exact steady_state_error_aborts_no_retry (fun d => toString d.length) 4
    (fun _ _ => []) (fun _ _ => 0)
    { block_id := 1, read := true, metadata := 2 } [none]
    { block := { id := 3 }, data := [9], callback := some 4 } [none]
    rfl rfl (by decide)

end Backy2Rbd
